import Mathlib

/-!
# Verification of the AI-governance scoring engines

Shallow embedding of the core logic of the repository:

* `src/source.py` — `ETHICAL_CHECKLIST`, `tier_model`, `apply_ethical_checklist`;
* `src/app.py` — the two deployment-recommendation rule chains
  (the Step-3 guardrail chain and the Final-Report chain).

Python dictionaries that the code only reads by key are embedded as
association lists with `List.lookup`; Python floats carrying exact
half-point scores are embedded as rationals (`ℚ`); Python code that can
raise (`dict[key]` on an unknown key) is embedded with `Except`.
-/

namespace Spec2Proof

/-- One entry of the fixed checklist table (`src/source.py` lines 6-17). -/
structure Question where
  id : ℕ
  question : String
  pillar : String
  weight : ℕ
deriving Repr, DecidableEq

/-- `ETHICAL_CHECKLIST` from `src/source.py` lines 6-17. -/
def ETHICAL_CHECKLIST : List Question := [
  ⟨1, "Could errors significantly harm clients or stakeholders?", "Reliability", 3⟩,
  ⟨2, "Has the model been tested for demographic bias?", "Fairness", 3⟩,
  ⟨3, "Can the model explain its individual decisions?", "Transparency", 2⟩,
  ⟨4, "Is there a process for human review of outputs?", "Accountability", 3⟩,
  ⟨5, "Has the model been stress-tested under adverse conditions?", "Reliability", 2⟩,
  ⟨6, "Is all AI-generated content labeled as such?", "Transparency", 1⟩,
  ⟨7, "Does the model use customer data with proper consent?", "Privacy", 2⟩,
  ⟨8, "Is there an incident response plan if the model fails?", "Accountability", 2⟩,
  ⟨9, "Has an independent team validated the model?", "Reliability", 2⟩,
  ⟨10, "Are model decisions logged for audit?", "Accountability", 2⟩]

/-- An answers mapping: a Python dict from question id to answer string,
embedded as an association list (keys unique in a dict; reads only). -/
abbrev Answers := List (ℕ × String)

/-- Key lookup in a Python dict embedded as an association list (keys are
unique in a dict, so first match is the match): `some` the stored value,
`none` when the key is absent. -/
def dictLookup {α β : Type} [DecidableEq α] (m : List (α × β)) (k : α) : Option β :=
  match m with
  | [] => none
  | (k₂, v) :: rest => if k₂ = k then some v else dictLookup rest k

/-- `answers.get(q['id'], 'no')` from `src/source.py` line 148:
lookup with default `"no"`. -/
def getAns (answers : Answers) (k : ℕ) : String :=
  match dictLookup answers k with
  | some v => v
  | none => "no"

/-- Points for one question (`src/source.py` line 149):
`q['weight'] if ans == 'yes' else q['weight'] * 0.5 if ans == 'partial' else 0`. -/
def pointsFor (weight : ℕ) (ans : String) : ℚ :=
  if ans = "yes" then (weight : ℚ)
  else if ans = "partial" then (weight : ℚ) * (1 / 2)
  else 0

/-- Grade from percentage (`src/source.py` line 155):
`'A' if pct >= 90 else 'B' if pct >= 75 else 'C' if pct >= 60 else 'F'`. -/
def gradeOf (pct : ℚ) : String :=
  if pct ≥ 90 then "A" else if pct ≥ 75 then "B" else if pct ≥ 60 then "C" else "F"

/-- One row of `full_checklist_results` (`src/source.py` line 152):
the question's fields plus the resolved answer and the points earned. -/
structure QuestionResult where
  id : ℕ
  question : String
  pillar : String
  weight : ℕ
  answer : String
  points_earned : ℚ
deriving Repr, DecidableEq

/-- One row of `gaps_details` (`src/source.py` line 166). -/
structure GapDetail where
  id : ℕ
  pillar : String
  question : String
deriving Repr, DecidableEq

/-- The dict returned by `apply_ethical_checklist` (`src/source.py` lines 159-168). -/
structure ChecklistResult where
  model : String
  score_percentage : ℚ
  raw_score : ℚ
  max_possible_score : ℕ
  grade : String
  gaps_count : ℕ
  gaps_details : List GapDetail
  full_checklist_results : List QuestionResult
deriving Repr, DecidableEq

/-- The loop body of `apply_ethical_checklist` (`src/source.py` lines
148-152) for one question: `{**q, 'answer': ans, 'points_earned': pts}`. -/
def mkQuestionResult (answers : Answers) (q : Question) : QuestionResult :=
  let ans := getAns answers q.id
  { id := q.id, question := q.question, pillar := q.pillar, weight := q.weight,
    answer := ans, points_earned := pointsFor q.weight ans }

/-- `apply_ethical_checklist` from `src/source.py` lines 130-168.  The Python
loop accumulates `score`, `max_score` and `results_details` in one pass over
`ETHICAL_CHECKLIST`; the three independent accumulations are rendered as a
map over the table followed by sums. -/
def apply_ethical_checklist (model_name : String) (answers : Answers) : ChecklistResult :=
  let results_details : List QuestionResult :=
    ETHICAL_CHECKLIST.map (mkQuestionResult answers)
  let score : ℚ := (results_details.map (fun r => r.points_earned)).sum
  let max_score : ℕ := (ETHICAL_CHECKLIST.map (fun q => q.weight)).sum
  let pct : ℚ := if max_score > 0 then score / (max_score : ℚ) * 100 else 0
  let grade := gradeOf pct
  let gaps := results_details.filter (fun r => r.answer ≠ "yes")
  { model := model_name
    score_percentage := pct
    raw_score := score
    max_possible_score := max_score
    grade := grade
    gaps_count := gaps.length
    gaps_details := gaps.map (fun g => ⟨g.id, g.pillar, g.question⟩)
    full_checklist_results := results_details }

/-! ## Tiering engine (`src/source.py` lines 73-127) -/

/-- The decision-impact score dict (`src/source.py` lines 98-100). -/
def DECISION_IMPACT_SCORES : List (String × ℕ) :=
  [("informational", 1), ("advisory", 2), ("recommendation", 3),
   ("automated_decision", 4), ("autonomous_action", 5)]

/-- The autonomy score dict (`src/source.py` lines 103-105). -/
def AUTONOMY_SCORES : List (String × ℕ) :=
  [("human_executes", 1), ("human_approves", 2), ("human_monitors", 3),
   ("human_reviews_after", 4), ("fully_autonomous", 5)]

/-- The regulatory score dict (`src/source.py` lines 109-110). -/
def REGULATORY_SCORES : List (String × ℕ) :=
  [("none", 0), ("general", 1), ("sector_specific", 2), ("high_risk_regulated", 3)]

/-- The governance-requirements dict keyed by tier (`src/source.py` lines 123-127). -/
def GOVERNANCE_REQUIREMENTS : List (ℕ × String) :=
  [(1, "Full validation + bias + XAI + committee approval + annual review"),
   (2, "Validation + monitoring + manager approval + biennial review"),
   (3, "Documentation + basic testing + self-certification + triennial review")]

/-- Financial-impact component (`src/source.py` lines 116-118):
`if financial_impact_usd > 10_000_000: score += 3` / `elif > 1_000_000: 2`
/ `elif > 100_000: 1` / else `0`. -/
def sFinancial (financial_impact_usd : ℚ) : ℕ :=
  if financial_impact_usd > 10000000 then 3
  else if financial_impact_usd > 1000000 then 2
  else if financial_impact_usd > 100000 then 1
  else 0

/-- Tier from total score (`src/source.py` line 120):
`tier = 1 if score >= 10 else 2 if score >= 6 else 3`. -/
def tierOf (score : ℤ) : ℕ :=
  if score ≥ 10 then 1 else if score ≥ 6 then 2 else 3

/-- A Python `KeyError` raised by a failed enum-dict lookup inside
`tier_model`, tagged with the dict (field) being read and the offending key. -/
inductive TierError where
  | invalidProfile (field : String) (value : String)
deriving Repr, DecidableEq

/-- The dict returned by `tier_model` (`src/source.py` lines 122-127). -/
structure TierResult where
  model : String
  score : ℤ
  tier : ℕ
  governance_requirements : String
deriving Repr, DecidableEq

/-- `tier_model` from `src/source.py` lines 73-127.  Each Python dict
subscript `d[key]` raises `KeyError` on an unknown key; this is embedded as
`Except`, the error recording which lookup failed and on what value. -/
def tier_model (model_name decision_impact autonomy_level regulatory_exposure : String)
    (client_facing : Bool) (financial_impact_usd : ℚ) : Except TierError TierResult := do
  let s_impact ← match dictLookup DECISION_IMPACT_SCORES decision_impact with
    | some v => pure v
    | none => throw (.invalidProfile "decision_impact" decision_impact)
  let s_autonomy ← match dictLookup AUTONOMY_SCORES autonomy_level with
    | some v => pure v
    | none => throw (.invalidProfile "autonomy_level" autonomy_level)
  let s_regulatory ← match dictLookup REGULATORY_SCORES regulatory_exposure with
    | some v => pure v
    | none => throw (.invalidProfile "regulatory_exposure" regulatory_exposure)
  let score : ℤ := (s_impact : ℤ) + s_autonomy + s_regulatory
    + (if client_facing then 2 else 0) + sFinancial financial_impact_usd
  let tier := tierOf score
  let gov ← match dictLookup GOVERNANCE_REQUIREMENTS tier with
    | some g => pure g
    | none => throw (.invalidProfile "tier" (toString tier))
  pure { model := model_name, score := score, tier := tier, governance_requirements := gov }

/-! ## Recommendation rule chains (`src/app.py`) -/

/-- The Step-3 guardrail recommendation from `src/app.py` lines 457-477:
a hard stop when the model is Tier 1 and `answers.get(2)` is not `"yes"`
(note: no default, so a missing answer also triggers it), otherwise the
grade-based chain. -/
def step3Recommendation (tier_value : ℕ) (answers : Answers)
    (result : ChecklistResult) : String :=
  if tier_value = 1 ∧ dictLookup answers 2 ≠ some "yes" then
    "BLOCKED pending remediation (guardrail triggered)"
  else if tier_value = 1 ∧ (result.grade = "A" ∨ result.grade = "B") then
    "Deployable with controls (committee sign-off + monitoring + evidence pack required)"
  else if result.grade = "A" then
    "Deployable (subject to standard monitoring + documentation)"
  else if result.grade = "B" then
    "Deployable with remediation plan and defined owners"
  else if result.grade = "C" then
    "Not production-ready without remediation"
  else
    "BLOCKED pending remediation"

/-- The Final-Report per-model recommendation from `src/app.py` lines
795-811, computed from the stored tier, grade and gap count (the decorated
markdown/emoji prefixes of the strings are elided). -/
def finalReportRecommendation (tier_val : ℕ) (grade : String) (gaps : ℕ) : String :=
  if tier_val = 1 ∧ (grade = "A" ∨ grade = "B") then
    "Deployable with controls (committee sign-off + monitoring + evidence pack required)"
  else if tier_val = 1 ∧ gaps > 0 then
    "BLOCKED pending remediation (Tier 1 with gaps)"
  else if grade = "A" then
    "Deployable (subject to standard monitoring + documentation)"
  else if grade = "B" then
    "Deployable with remediation plan and defined owners"
  else if grade = "C" then
    "Not production-ready without remediation"
  else
    "BLOCKED pending remediation"

/-- A concrete answer set: every control answered `"yes"` except the
bias-testing question (id 2), answered `"partial"` — so the checklist grade
is A while question 2 is a gap. -/
def biasGapAnswers : Answers :=
  [(1, "yes"), (2, "partial"), (3, "yes"), (4, "yes"), (5, "yes"),
   (6, "yes"), (7, "yes"), (8, "yes"), (9, "yes"), (10, "yes")]

/-- Specification-side transformation used to state the amended claim C4:
replace every answer value outside `{yes, partial}` by `"no"`.  (`"no"`
itself is unchanged by this.) -/
def treatUnknownAsNo (answers : Answers) : Answers :=
  answers.map (fun p => (p.1, if p.2 = "yes" ∨ p.2 = "partial" then p.2 else "no"))

/-! ## Helper lemmas -/

/-- `raw_score` is the sum, over the checklist, of the points for the
resolved answer of each question. -/
lemma raw_score_eq (model_name : String) (answers : Answers) :
    (apply_ethical_checklist model_name answers).raw_score
      = (ETHICAL_CHECKLIST.map (fun q => pointsFor q.weight (getAns answers q.id))).sum := by
  simp [apply_ethical_checklist, List.map_map]
  rfl

/-- `max_possible_score` is the sum of the checklist weights, whatever the
answers. -/
lemma max_score_eq (model_name : String) (answers : Answers) :
    (apply_ethical_checklist model_name answers).max_possible_score
      = (ETHICAL_CHECKLIST.map (fun q => q.weight)).sum := rfl

/-- The checklist weights sum to 22. -/
lemma weight_sum_eq : (ETHICAL_CHECKLIST.map (fun q => q.weight)).sum = 22 := by decide

/-- The percentage is `raw_score / max_score * 100` (the `max_score > 0`
guard is taken, the sum of weights being 22). -/
lemma pct_eq (model_name : String) (answers : Answers) :
    (apply_ethical_checklist model_name answers).score_percentage
      = (apply_ethical_checklist model_name answers).raw_score
          / ((apply_ethical_checklist model_name answers).max_possible_score : ℚ) * 100 := rfl

/-- The grade field is `gradeOf` of the percentage field. -/
lemma grade_eq (model_name : String) (answers : Answers) :
    (apply_ethical_checklist model_name answers).grade
      = gradeOf (apply_ethical_checklist model_name answers).score_percentage := rfl

/-- `gaps_details` lists, in checklist-table order, exactly the questions
whose resolved answer is not `"yes"`, projected to (id, pillar, question). -/
lemma gaps_details_eq (model_name : String) (answers : Answers) :
    (apply_ethical_checklist model_name answers).gaps_details
      = (ETHICAL_CHECKLIST.filter (fun q => getAns answers q.id ≠ "yes")).map
          (fun q => { id := q.id, pillar := q.pillar, question := q.question }) := by
  simp only [apply_ethical_checklist]
  rw [List.filter_map, List.map_map]
  rfl

/-- `gaps_count` is the number of questions whose resolved answer is not
`"yes"`. -/
lemma gaps_count_eq (model_name : String) (answers : Answers) :
    (apply_ethical_checklist model_name answers).gaps_count
      = (ETHICAL_CHECKLIST.filter (fun q => getAns answers q.id ≠ "yes")).length := by
  have h : (apply_ethical_checklist model_name answers).gaps_count
      = (apply_ethical_checklist model_name answers).gaps_details.length := by
    simp only [apply_ethical_checklist]
    simp [List.length_map]
  rw [h, gaps_details_eq, List.length_map]

/-- `tierOf` only takes the values 1, 2 and 3. -/
lemma tierOf_cases (s : ℤ) : tierOf s = 1 ∨ tierOf s = 2 ∨ tierOf s = 3 := by
  unfold tierOf; split_ifs <;> simp

/-- Looking up in the value-sanitised dict is sanitising the lookup. -/
lemma dictLookup_treatUnknownAsNo (answers : Answers) (k : ℕ) :
    dictLookup (treatUnknownAsNo answers) k
      = (dictLookup answers k).map (fun v => if v = "yes" ∨ v = "partial" then v else "no") := by
  induction answers with
  | nil => rfl
  | cons p rest ih =>
    rcases p with ⟨k₂, v⟩
    by_cases hk : k₂ = k <;> simp [treatUnknownAsNo, dictLookup, hk] <;>
      simpa [treatUnknownAsNo] using ih

/-- The resolved answer after sanitising is the sanitised resolved answer
(`"no"`, the default for a missing id, is a fixed point of sanitising). -/
lemma getAns_treatUnknownAsNo (answers : Answers) (k : ℕ) :
    getAns (treatUnknownAsNo answers) k
      = (if getAns answers k = "yes" ∨ getAns answers k = "partial"
          then getAns answers k else "no") := by
  unfold getAns
  rw [dictLookup_treatUnknownAsNo]
  rcases dictLookup answers k with _ | v <;> simp

/-- Sanitising an answer value does not change the points it earns. -/
lemma pointsFor_sanitized (w : ℕ) (v : String) :
    pointsFor w (if v = "yes" ∨ v = "partial" then v else "no") = pointsFor w v := by
  unfold pointsFor
  split_ifs <;> simp_all

/-- Sanitising an answer value does not change whether it is a gap. -/
lemma sanitized_ne_yes (v : String) :
    ((if v = "yes" ∨ v = "partial" then v else "no") ≠ "yes") ↔ (v ≠ "yes") := by
  split_ifs <;> simp_all

/-- Points earned are never negative, whatever the answer string. -/
lemma pointsFor_nonneg (w : ℕ) (v : String) : 0 ≤ pointsFor w v := by
  unfold pointsFor
  split_ifs <;> positivity

/-- Points earned never exceed the question's weight, whatever the answer
string. -/
lemma pointsFor_le_weight (w : ℕ) (v : String) : pointsFor w v ≤ (w : ℚ) := by
  have hw : (0 : ℚ) ≤ (w : ℚ) := Nat.cast_nonneg w
  unfold pointsFor
  split_ifs <;> linarith

/-- The raw score is nonnegative for every answer set. -/
lemma raw_score_nonneg (model_name : String) (answers : Answers) :
    0 ≤ (apply_ethical_checklist model_name answers).raw_score := by
  rw [raw_score_eq]
  refine List.sum_nonneg ?_
  intro x hx
  rcases List.mem_map.mp hx with ⟨q, _, rfl⟩
  exact pointsFor_nonneg q.weight _

/-- The raw score never exceeds 22, the sum of the weights. -/
lemma raw_score_le_22 (model_name : String) (answers : Answers) :
    (apply_ethical_checklist model_name answers).raw_score ≤ 22 := by
  rw [raw_score_eq]
  calc (ETHICAL_CHECKLIST.map (fun q => pointsFor q.weight (getAns answers q.id))).sum
      ≤ (ETHICAL_CHECKLIST.map (fun q => (q.weight : ℚ))).sum :=
        List.sum_le_sum (fun q _ => pointsFor_le_weight q.weight _)
    _ = 22 := by norm_num [ETHICAL_CHECKLIST]

/-! ## Claims -/

/-- Claim C1: the spec requires that a Tier-1 model whose bias-testing
question (id 2) is not answered exactly `"yes"` is always BLOCKED, never
Deployable, regardless of grade.  On the concrete Tier-1 input
`biasGapAnswers` (grade A, question 2 answered `"partial"`), the Step-3
guardrail chain of `src/app.py` (lines 457-477) does yield the BLOCKED
outcome, but the Final-Report chain (lines 795-811) tests
`tier == 1 and grade in [A, B]` before its Tier-1-with-gaps BLOCKED rule
and yields "Deployable with controls" — contradicting the required
guardrail precedence. -/
theorem C1_final_report_breaks_guardrail :
    (apply_ethical_checklist "Credit Default XGBoost" biasGapAnswers).grade = "A"
    ∧ (apply_ethical_checklist "Credit Default XGBoost" biasGapAnswers).gaps_count = 1
    ∧ step3Recommendation 1 biasGapAnswers
        (apply_ethical_checklist "Credit Default XGBoost" biasGapAnswers)
        = "BLOCKED pending remediation (guardrail triggered)"
    ∧ finalReportRecommendation 1
        (apply_ethical_checklist "Credit Default XGBoost" biasGapAnswers).grade
        (apply_ethical_checklist "Credit Default XGBoost" biasGapAnswers).gaps_count
        = "Deployable with controls (committee sign-off + monitoring + evidence pack required)" := by
  refine ⟨?_, by decide, by decide, ?_⟩
  · norm_num +decide [apply_ethical_checklist, mkQuestionResult, ETHICAL_CHECKLIST, getAns,
      pointsFor, gradeOf, biasGapAnswers, dictLookup]
  · norm_num +decide [finalReportRecommendation, apply_ethical_checklist, mkQuestionResult,
      ETHICAL_CHECKLIST, getAns, pointsFor, gradeOf, biasGapAnswers, dictLookup]

/-- Claim C5: `tier_model` fails on the first enum field whose value is
outside its score dict (the error naming the offending field and value,
never substituting a default), and succeeds whenever all three enum fields
are in their dicts — for any `client_facing` and any financial impact. -/
theorem C5_invalid_profile (model_name di al re : String) (cf : Bool) (fin : ℚ) :
    (dictLookup DECISION_IMPACT_SCORES di = none →
      tier_model model_name di al re cf fin
        = .error (.invalidProfile "decision_impact" di))
    ∧ (dictLookup DECISION_IMPACT_SCORES di ≠ none →
       dictLookup AUTONOMY_SCORES al = none →
      tier_model model_name di al re cf fin
        = .error (.invalidProfile "autonomy_level" al))
    ∧ (dictLookup DECISION_IMPACT_SCORES di ≠ none →
       dictLookup AUTONOMY_SCORES al ≠ none →
       dictLookup REGULATORY_SCORES re = none →
      tier_model model_name di al re cf fin
        = .error (.invalidProfile "regulatory_exposure" re))
    ∧ (dictLookup DECISION_IMPACT_SCORES di ≠ none →
       dictLookup AUTONOMY_SCORES al ≠ none →
       dictLookup REGULATORY_SCORES re ≠ none →
      ∃ r : TierResult, tier_model model_name di al re cf fin = .ok r) := by
  refine ⟨?_, ?_, ?_, ?_⟩
  · intro h
    simp only [tier_model, h]
    rfl
  · intro h1 h2
    rcases Option.ne_none_iff_exists'.mp h1 with ⟨v1, hv1⟩
    simp only [tier_model, hv1, h2]
    rfl
  · intro h1 h2 h3
    rcases Option.ne_none_iff_exists'.mp h1 with ⟨v1, hv1⟩
    rcases Option.ne_none_iff_exists'.mp h2 with ⟨v2, hv2⟩
    simp only [tier_model, hv1, hv2, h3]
    rfl
  · intro h1 h2 h3
    rcases Option.ne_none_iff_exists'.mp h1 with ⟨v1, hv1⟩
    rcases Option.ne_none_iff_exists'.mp h2 with ⟨v2, hv2⟩
    rcases Option.ne_none_iff_exists'.mp h3 with ⟨v3, hv3⟩
    simp only [tier_model, hv1, hv2, hv3, bind, Except.bind, pure, Except.pure]
    rcases tierOf_cases ((v1 : ℤ) + v2 + v3 + (if cf then 2 else 0) + sFinancial fin)
      with h | h | h <;> rw [h] <;> exact ⟨_, rfl⟩

/-- Witness for C5: the unknown value `"bogus"` for `decision_impact` makes
`tier_model` fail naming that field and value, while a fully valid profile
succeeds. -/
theorem C5_witness :
    dictLookup DECISION_IMPACT_SCORES "bogus" = none
    ∧ tier_model "m" "bogus" "human_executes" "none" false 0
        = .error (.invalidProfile "decision_impact" "bogus")
    ∧ ∃ r : TierResult, tier_model "m" "informational" "human_executes" "none" false 0 = .ok r :=
  ⟨by decide,
   (C5_invalid_profile "m" "bogus" "human_executes" "none" false 0).1 (by decide),
   (C5_invalid_profile "m" "informational" "human_executes" "none" false 0).2.2.2
     (by decide) (by decide) (by decide)⟩

/-- Claim C2: tier assignment is a total partition of the integers:
`S_total ≥ 10` is exactly Tier 1, `6 ≤ S_total < 10` exactly Tier 2,
`S_total < 6` exactly Tier 3 (so every integer gets exactly one tier), with
the boundary values 10 ↦ 1, 9 ↦ 2, 6 ↦ 2, 5 ↦ 3 — `tierOf` being the tier
assignment performed inside `tier_model`. -/
theorem C2_tier_partition (s : ℤ) :
    (tierOf s = 1 ↔ 10 ≤ s)
    ∧ (tierOf s = 2 ↔ 6 ≤ s ∧ s < 10)
    ∧ (tierOf s = 3 ↔ s < 6)
    ∧ (tierOf s = 1 ∨ tierOf s = 2 ∨ tierOf s = 3)
    ∧ tierOf 10 = 1 ∧ tierOf 9 = 2 ∧ tierOf 6 = 2 ∧ tierOf 5 = 3 := by
  refine ⟨?_, ?_, ?_, ?_, by decide, by decide, by decide, by decide⟩ <;>
    · unfold tierOf
      split_ifs <;> simp <;> omega

/-- Claim C3 (counterexample): the fixed checklist's maximum possible score
is not 21 — already on the empty answer set the result carries 22. -/
theorem C3_max_is_not_21 :
    (apply_ethical_checklist "m" []).max_possible_score ≠ 21 := by decide

/-- Claim C3 (amended): for every answer set, `max_possible_score` equals
the sum of all ten question weights of the fixed checklist, and that sum is
the fixed constant 22 (not 21). -/
theorem C3_max_score_amended (model_name : String) (answers : Answers) :
    (apply_ethical_checklist model_name answers).max_possible_score
        = (ETHICAL_CHECKLIST.map (fun q => q.weight)).sum
    ∧ (ETHICAL_CHECKLIST.map (fun q => q.weight)).sum = 22 :=
  ⟨max_score_eq model_name answers, weight_sum_eq⟩

/-- Claim C6: grade assignment in `apply_ethical_checklist` has closed
lower bounds on the exact percentage — `gradeOf` (the grade computation of
`apply_ethical_checklist`, as the last conjunct records) returns A exactly
on `pct ≥ 90`, B exactly on `75 ≤ pct < 90`, C exactly on `60 ≤ pct < 75`,
F exactly on `pct < 60`; in particular 90 ↦ A, 89.9999 ↦ B, 75 ↦ B,
60 ↦ C, 59.9 ↦ F. -/
theorem C6_grade_thresholds (pct : ℚ) :
    (gradeOf pct = "A" ↔ 90 ≤ pct)
    ∧ (gradeOf pct = "B" ↔ 75 ≤ pct ∧ pct < 90)
    ∧ (gradeOf pct = "C" ↔ 60 ≤ pct ∧ pct < 75)
    ∧ (gradeOf pct = "F" ↔ pct < 60)
    ∧ gradeOf 90 = "A" ∧ gradeOf (899999 / 10000) = "B" ∧ gradeOf 75 = "B"
    ∧ gradeOf 60 = "C" ∧ gradeOf (599 / 10) = "F"
    ∧ (∀ (n : String) (a : Answers),
        (apply_ethical_checklist n a).grade
          = gradeOf (apply_ethical_checklist n a).score_percentage) := by
  refine ⟨?_, ?_, ?_, ?_, by norm_num [gradeOf], by norm_num [gradeOf],
    by norm_num [gradeOf], by norm_num [gradeOf], by norm_num [gradeOf], grade_eq⟩
  · unfold gradeOf; split_ifs <;> simp_all
  · unfold gradeOf; split_ifs <;> simp_all <;> intros <;> linarith
  · unfold gradeOf; split_ifs <;> simp_all <;> intros <;> linarith
  · unfold gradeOf; split_ifs <;> simp_all <;> intros <;> linarith

/-- Claim C7: the financial-impact component of the tier score uses strict
greater-than thresholds — `sFinancial` (the `elif` chain of `tier_model`)
is 3 exactly above 10,000,000, 2 exactly on (1,000,000, 10,000,000],
1 exactly on (100,000, 1,000,000], 0 exactly at or below 100,000; in
particular exactly 10,000,000 yields 2, not 3. -/
theorem C7_financial_thresholds (f : ℚ) :
    (sFinancial f = 3 ↔ 10000000 < f)
    ∧ (sFinancial f = 2 ↔ 1000000 < f ∧ f ≤ 10000000)
    ∧ (sFinancial f = 1 ↔ 100000 < f ∧ f ≤ 1000000)
    ∧ (sFinancial f = 0 ↔ f ≤ 100000)
    ∧ sFinancial 10000000 = 2 := by
  refine ⟨?_, ?_, ?_, ?_, by norm_num [sFinancial]⟩
  · unfold sFinancial; split_ifs <;> simp_all
  · unfold sFinancial; split_ifs <;> simp_all <;> intros <;> linarith
  · unfold sFinancial; split_ifs <;> simp_all <;> intros <;> linarith
  · unfold sFinancial; split_ifs <;> simp_all <;> intros <;> linarith

/-- Claim C4 (counterexample): on the concrete answers `{1: "maybe"}` —
a value outside `{yes, partial, no}` — `apply_ethical_checklist` does not
fail: it returns a complete, graded result in which the invalid answer is
silently scored 0 points. -/
theorem C4_unknown_answer_returns_result :
    (apply_ethical_checklist "m" [(1, "maybe")]).raw_score = 0
    ∧ (apply_ethical_checklist "m" [(1, "maybe")]).score_percentage = 0
    ∧ (apply_ethical_checklist "m" [(1, "maybe")]).grade = "F"
    ∧ (apply_ethical_checklist "m" [(1, "maybe")]).full_checklist_results.map
        (fun r => r.points_earned)
      = [0, 0, 0, 0, 0, 0, 0, 0, 0, 0]
    ∧ (apply_ethical_checklist "m" [(1, "maybe")]).full_checklist_results.map
        (fun r => r.answer)
      = ["maybe", "no", "no", "no", "no", "no", "no", "no", "no", "no"] := by
  norm_num +decide [apply_ethical_checklist, mkQuestionResult, ETHICAL_CHECKLIST, getAns,
    pointsFor, gradeOf, dictLookup]

/-- Claim C4 (amended): `apply_ethical_checklist` accepts every answers
mapping; an answer value outside `{yes, partial, no}` is silently scored 0
points, i.e. every scoring output (raw score, percentage, grade, gap count,
gap details, max score) coincides with that of the mapping in which such
values are replaced by `"no"`. -/
theorem C4_amended_unknown_treated_as_no (model_name : String) (answers : Answers) :
    (apply_ethical_checklist model_name answers).raw_score
        = (apply_ethical_checklist model_name (treatUnknownAsNo answers)).raw_score
    ∧ (apply_ethical_checklist model_name answers).score_percentage
        = (apply_ethical_checklist model_name (treatUnknownAsNo answers)).score_percentage
    ∧ (apply_ethical_checklist model_name answers).grade
        = (apply_ethical_checklist model_name (treatUnknownAsNo answers)).grade
    ∧ (apply_ethical_checklist model_name answers).gaps_count
        = (apply_ethical_checklist model_name (treatUnknownAsNo answers)).gaps_count
    ∧ (apply_ethical_checklist model_name answers).gaps_details
        = (apply_ethical_checklist model_name (treatUnknownAsNo answers)).gaps_details
    ∧ (apply_ethical_checklist model_name answers).max_possible_score
        = (apply_ethical_checklist model_name (treatUnknownAsNo answers)).max_possible_score := by
  have hraw : (apply_ethical_checklist model_name answers).raw_score
      = (apply_ethical_checklist model_name (treatUnknownAsNo answers)).raw_score := by
    rw [raw_score_eq, raw_score_eq]
    refine congrArg List.sum (List.map_congr_left ?_)
    intro q _
    rw [getAns_treatUnknownAsNo, pointsFor_sanitized]
  have hfilter : ETHICAL_CHECKLIST.filter (fun q => getAns answers q.id ≠ "yes")
      = ETHICAL_CHECKLIST.filter (fun q => getAns (treatUnknownAsNo answers) q.id ≠ "yes") := by
    refine List.filter_congr ?_
    intro q _
    rw [getAns_treatUnknownAsNo]
    exact (decide_eq_decide.mpr (sanitized_ne_yes (getAns answers q.id))).symm
  have hpct : (apply_ethical_checklist model_name answers).score_percentage
      = (apply_ethical_checklist model_name (treatUnknownAsNo answers)).score_percentage := by
    rw [pct_eq, pct_eq, hraw, max_score_eq, max_score_eq]
  refine ⟨hraw, hpct, ?_, ?_, ?_, rfl⟩
  · rw [grade_eq, grade_eq, hpct]
  · rw [gaps_count_eq, gaps_count_eq, hfilter]
  · rw [gaps_details_eq, gaps_details_eq, hfilter]

/-- Claim C8: for every answer set, `gaps_details` is exactly the list of
questions whose resolved answer is not `"yes"`, taken in checklist-table
order — so its ids are strictly ascending regardless of the answers
mapping — and the gap count plus the number of questions resolved `"yes"`
is the question count, 10. -/
theorem C8_gaps_exact_sorted_counted (model_name : String) (answers : Answers) :
    (apply_ethical_checklist model_name answers).gaps_details
      = (ETHICAL_CHECKLIST.filter (fun q => getAns answers q.id ≠ "yes")).map
          (fun q => { id := q.id, pillar := q.pillar, question := q.question })
    ∧ List.Sorted (· < ·)
        ((apply_ethical_checklist model_name answers).gaps_details.map (fun g => g.id))
    ∧ (apply_ethical_checklist model_name answers).gaps_count
        + (ETHICAL_CHECKLIST.filter (fun q => getAns answers q.id = "yes")).length
        = ETHICAL_CHECKLIST.length
    ∧ ETHICAL_CHECKLIST.length = 10 := by
  refine ⟨gaps_details_eq model_name answers, ?_, ?_, by decide⟩
  · have h1 : (apply_ethical_checklist model_name answers).gaps_details.map (fun g => g.id)
        = (ETHICAL_CHECKLIST.filter (fun q => getAns answers q.id ≠ "yes")).map
            (fun q => q.id) := by
      rw [gaps_details_eq, List.map_map]
      rfl
    have h2 : List.Sublist
        ((ETHICAL_CHECKLIST.filter (fun q => getAns answers q.id ≠ "yes")).map
          (fun q => q.id))
        (ETHICAL_CHECKLIST.map (fun q => q.id)) :=
      (List.filter_sublist ETHICAL_CHECKLIST).map (fun q => q.id)
    have h3 : List.Pairwise (· < ·) (ETHICAL_CHECKLIST.map (fun q => q.id)) := by decide
    rw [h1]
    exact List.Pairwise.sublist h2 h3
  · rw [gaps_count_eq]
    have h4 := List.length_eq_length_filter_add
      (l := ETHICAL_CHECKLIST) (fun q => decide (getAns answers q.id = "yes"))
    have h5 : ETHICAL_CHECKLIST.filter (fun q => getAns answers q.id ≠ "yes")
        = ETHICAL_CHECKLIST.filter (fun q => !(decide (getAns answers q.id = "yes"))) := by
      simp [decide_not]
    rw [h5]
    omega

/-- Claim C9: for every answer set whose values all lie in
`{yes, partial, no}`, the raw score does not exceed the maximum possible
score and the percentage lies in [0, 100]. -/
theorem C9_score_bounds (model_name : String) (answers : Answers)
    (h : ∀ p ∈ answers, p.2 = "yes" ∨ p.2 = "partial" ∨ p.2 = "no") :
    (apply_ethical_checklist model_name answers).raw_score
        ≤ ((apply_ethical_checklist model_name answers).max_possible_score : ℚ)
    ∧ 0 ≤ (apply_ethical_checklist model_name answers).score_percentage
    ∧ (apply_ethical_checklist model_name answers).score_percentage ≤ 100 := by
  have h0 := raw_score_nonneg model_name answers
  have h22 := raw_score_le_22 model_name answers
  have hmax : ((apply_ethical_checklist model_name answers).max_possible_score : ℚ) = 22 := by
    rw [max_score_eq, weight_sum_eq]; norm_num
  refine ⟨by rw [hmax]; exact h22, ?_, ?_⟩
  · rw [pct_eq, hmax]
    exact mul_nonneg (div_nonneg h0 (by norm_num)) (by norm_num)
  · rw [pct_eq, hmax, div_mul_eq_mul_div, div_le_iff (by norm_num : (0:ℚ) < 22)]
    linarith

/-- Witness for C9: the answer set `{1: "partial"}` has all values in the
accepted set and satisfies the bounds. -/
theorem C9_witness :
    (∀ p ∈ ([(1, "partial")] : Answers), p.2 = "yes" ∨ p.2 = "partial" ∨ p.2 = "no")
    ∧ ((apply_ethical_checklist "m" [(1, "partial")]).raw_score
        ≤ ((apply_ethical_checklist "m" [(1, "partial")]).max_possible_score : ℚ)
      ∧ 0 ≤ (apply_ethical_checklist "m" [(1, "partial")]).score_percentage
      ∧ (apply_ethical_checklist "m" [(1, "partial")]).score_percentage ≤ 100) :=
  ⟨by decide, C9_score_bounds "m" [(1, "partial")] (by decide)⟩

/-- Claim C10: `apply_ethical_checklist` depends only on the restriction of
the answers mapping to the ten fixed question ids — two mappings whose
lookups agree on ids 1..10 give identical results in every field, whatever
extra keys or key order either has. -/
theorem C10_depends_only_on_ids_1_to_10 (model_name : String) (a1 a2 : Answers)
    (h : ∀ k ∈ List.range' 1 10, dictLookup a1 k = dictLookup a2 k) :
    apply_ethical_checklist model_name a1 = apply_ethical_checklist model_name a2 := by
  have hq : ∀ q ∈ ETHICAL_CHECKLIST, getAns a1 q.id = getAns a2 q.id := by
    intro q hmem
    have hid : q.id ∈ List.range' 1 10 := by fin_cases hmem <;> decide
    unfold getAns
    rw [h q.id hid]
  have hmap : ETHICAL_CHECKLIST.map (mkQuestionResult a1)
      = ETHICAL_CHECKLIST.map (mkQuestionResult a2) :=
    List.map_congr_left (fun q hmem => by unfold mkQuestionResult; simp only [hq q hmem])
  simp only [apply_ethical_checklist, hmap]

/-- Witness for C10: a mapping with an extra key 42 and reordered insertions
gives the same result as the plain mapping agreeing with it on ids 1..10. -/
theorem C10_witness :
    apply_ethical_checklist "m" [(2, "yes"), (1, "no"), (42, "partial")]
      = apply_ethical_checklist "m" [(1, "no"), (2, "yes")] :=
  C10_depends_only_on_ids_1_to_10 "m" [(2, "yes"), (1, "no"), (42, "partial")]
    [(1, "no"), (2, "yes")] (by decide)

end Spec2Proof
